import Mathlib

/-!
Shallow embedding of src/ControlBombas.py: the two-pump supervisory control
program driving a Raspberry Pi Pico.  Hardware collaborators (GPIO pins,
ADC, one-wire bus, LCD) are modelled as per-tick oracle inputs and emitted
events; the machine floats of the current readings are modelled as rationals.
-/

/-- State and configuration of one pump (class `Bomba` of ControlBombas.py,
lines 85-174).  The relay and sensor pin handles are external hardware
collaborators and are not part of the modelled state; the one-wire sensor
identifier is configuration consumed only by the hardware and is omitted. -/
structure Bomba where
  numero : Nat
  tension : ℤ
  corriente_nominal : ℚ
  potencia : ℚ
  corriente_falla : ℚ
  temp_falla : ℤ
  estado_bomba : Bool
  estado_falla : Bool
  corriente : ℚ
  temperatura : ℤ
deriving DecidableEq

/-- Constructor `Bomba.__init__` (lines 88-101): configuration is stored and
the runtime state starts stopped, unfaulted, with zero readings.  The source
defaults `tension = 380`, `corriente_nominal = 0`, `potencia = 0`. -/
def Bomba.mkInit (numero : Nat) (corriente_falla : ℚ) (temp_falla : ℤ) : Bomba :=
  { numero := numero, tension := 380, corriente_nominal := 0, potencia := 0,
    corriente_falla := corriente_falla, temp_falla := temp_falla,
    estado_bomba := false, estado_falla := false, corriente := 0, temperatura := 0 }

/-- `Bomba.marcha` (lines 127-130): energise the relay and record the pump as
running.  There is no guard on `estado_falla`. -/
def marcha (b : Bomba) : Bomba := { b with estado_bomba := true }

/-- `Bomba.parada` (lines 133-136): de-energise the relay and record the pump
as stopped. -/
def parada (b : Bomba) : Bomba := { b with estado_bomba := false }

/-- `Bomba.falla` (lines 171-174): stop the pump and latch the fault flag. -/
def falla (b : Bomba) : Bomba :=
  { parada b with estado_bomba := false, estado_falla := true }

/-- `Bomba.medir_corriente` (lines 139-152), parametrised by the list of
converted current samples gathered in the 1000-iteration sampling loop (the
ADC read and the linear conversion are the oracle).  The source list always
has exactly 1000 elements, hence is non-empty; Python `max(lista)` is
`List.max?`.  On `max(lista) >= corriente_falla` the pump faults and the
stored reading is untouched; otherwise the maximum is stored. -/
def medir_corriente (b : Bomba) (samples : List ℚ) : Bomba :=
  match samples.max? with
  | none => b
  | some m => if b.corriente_falla ≤ m then falla b else { b with corriente := m }

/-- `Bomba.medir_temperatura` (lines 155-168), parametrised by the oracle
outcome of the one-wire read: `none` models an exception caught by the bare
`except:` handler, which only resets the bus and leaves the pump state
untouched; `some t` is the integer-truncated reading. -/
def medir_temperatura (b : Bomba) (reading : Option ℤ) : Bomba :=
  match reading with
  | none => b
  | some t => if b.temp_falla ≤ t then falla b else { b with temperatura := t }

/-- The measurement pair performed on a running pump: `medir_corriente()`
immediately followed by `medir_temperatura()` (main loop lines 378-379,
392-393; fault supervisor lines 311-312, 342-343). -/
def medicion (b : Bomba) (samples : List ℚ) (reading : Option ℤ) : Bomba :=
  medir_temperatura (medir_corriente b samples) reading

@[simp] theorem marcha_estado_bomba (b : Bomba) : (marcha b).estado_bomba = true := rfl

@[simp] theorem marcha_estado_falla (b : Bomba) : (marcha b).estado_falla = b.estado_falla := rfl

@[simp] theorem marcha_corriente (b : Bomba) : (marcha b).corriente = b.corriente := rfl

@[simp] theorem marcha_temperatura (b : Bomba) : (marcha b).temperatura = b.temperatura := rfl

@[simp] theorem parada_estado_bomba (b : Bomba) : (parada b).estado_bomba = false := rfl

@[simp] theorem parada_estado_falla (b : Bomba) : (parada b).estado_falla = b.estado_falla := rfl

@[simp] theorem falla_estado_bomba (b : Bomba) : (falla b).estado_bomba = false := rfl

@[simp] theorem falla_estado_falla (b : Bomba) : (falla b).estado_falla = true := rfl

@[simp] theorem falla_corriente (b : Bomba) : (falla b).corriente = b.corriente := rfl

@[simp] theorem falla_temperatura (b : Bomba) : (falla b).temperatura = b.temperatura := rfl

/-- The fault flag is never cleared by `medir_corriente`. -/
theorem medir_corriente_falla_mono (b : Bomba) (l : List ℚ)
    (h : b.estado_falla = true) : (medir_corriente b l).estado_falla = true := by
  unfold medir_corriente
  cases hm : l.max? with
  | none => exact h
  | some m =>
    by_cases hc : b.corriente_falla ≤ m <;> simp [hc, h]

/-- `medir_corriente` preserves the fault-implies-stopped property. -/
theorem medir_corriente_inv (b : Bomba) (l : List ℚ)
    (h : b.estado_falla = true → b.estado_bomba = false) :
    (medir_corriente b l).estado_falla = true → (medir_corriente b l).estado_bomba = false := by
  unfold medir_corriente
  cases hm : l.max? with
  | none => exact h
  | some m =>
    by_cases hc : b.corriente_falla ≤ m
    · simp [hc]
    · simpa [hc] using h

/-- If `medir_corriente` finishes unfaulted, the pump was unfaulted before and
its running flag is unchanged. -/
theorem medir_corriente_nofault (b : Bomba) (l : List ℚ)
    (h : (medir_corriente b l).estado_falla = false) :
    b.estado_falla = false ∧ (medir_corriente b l).estado_bomba = b.estado_bomba := by
  revert h
  unfold medir_corriente
  cases hm : l.max? with
  | none => exact fun h => ⟨h, rfl⟩
  | some m =>
    by_cases hc : b.corriente_falla ≤ m <;> simp [hc]

/-- The fault flag is never cleared by `medir_temperatura`. -/
theorem medir_temperatura_falla_mono (b : Bomba) (r : Option ℤ)
    (h : b.estado_falla = true) : (medir_temperatura b r).estado_falla = true := by
  unfold medir_temperatura
  cases r with
  | none => exact h
  | some t =>
    by_cases hc : b.temp_falla ≤ t <;> simp [hc, h]

/-- `medir_temperatura` preserves the fault-implies-stopped property. -/
theorem medir_temperatura_inv (b : Bomba) (r : Option ℤ)
    (h : b.estado_falla = true → b.estado_bomba = false) :
    (medir_temperatura b r).estado_falla = true → (medir_temperatura b r).estado_bomba = false := by
  unfold medir_temperatura
  cases r with
  | none => exact h
  | some t =>
    by_cases hc : b.temp_falla ≤ t
    · simp [hc]
    · simpa [hc] using h

/-- If `medir_temperatura` finishes unfaulted, the pump was unfaulted before
and its running flag is unchanged. -/
theorem medir_temperatura_nofault (b : Bomba) (r : Option ℤ)
    (h : (medir_temperatura b r).estado_falla = false) :
    b.estado_falla = false ∧ (medir_temperatura b r).estado_bomba = b.estado_bomba := by
  revert h
  unfold medir_temperatura
  cases r with
  | none => exact fun h => ⟨h, rfl⟩
  | some t =>
    by_cases hc : b.temp_falla ≤ t <;> simp [hc]

/-- The fault flag is never cleared by the measurement pair. -/
theorem medicion_falla_mono (b : Bomba) (l : List ℚ) (r : Option ℤ)
    (h : b.estado_falla = true) : (medicion b l r).estado_falla = true :=
  medir_temperatura_falla_mono _ _ (medir_corriente_falla_mono _ _ h)

/-- The measurement pair preserves the fault-implies-stopped property. -/
theorem medicion_inv (b : Bomba) (l : List ℚ) (r : Option ℤ)
    (h : b.estado_falla = true → b.estado_bomba = false) :
    (medicion b l r).estado_falla = true → (medicion b l r).estado_bomba = false :=
  medir_temperatura_inv _ _ (medir_corriente_inv _ _ h)

/-- If the measurement pair finishes unfaulted, the pump was unfaulted before
and its running flag is unchanged. -/
theorem medicion_nofault (b : Bomba) (l : List ℚ) (r : Option ℤ)
    (h : (medicion b l r).estado_falla = false) :
    b.estado_falla = false ∧ (medicion b l r).estado_bomba = b.estado_bomba := by
  have h2 := medir_temperatura_nofault _ _ h
  have h1 := medir_corriente_nofault _ _ h2.1
  exact ⟨h1.1, h2.2.trans h1.2⟩

/-- C1: during one call to `medir_corriente`, the operation computes the true
maximum of the sampling window; if that maximum is at or above the pump's
current-fault threshold the pump transitions to the faulted state
(`estado_falla = true`, `estado_bomba = false`, regardless of prior state)
and the stored reading `corriente` is left unchanged; otherwise the maximum
is stored as `corriente` and no fault occurs. -/
theorem C1_medir_corriente_spec (b : Bomba) (samples : List ℚ) (m : ℚ)
    (hm : samples.max? = some m) :
    (m ∈ samples ∧ ∀ x ∈ samples, x ≤ m) ∧
    (b.corriente_falla ≤ m →
      (medir_corriente b samples).estado_falla = true ∧
      (medir_corriente b samples).estado_bomba = false ∧
      (medir_corriente b samples).corriente = b.corriente) ∧
    (¬ b.corriente_falla ≤ m →
      (medir_corriente b samples).corriente = m ∧
      (medir_corriente b samples).estado_falla = b.estado_falla ∧
      (medir_corriente b samples).estado_bomba = b.estado_bomba) := by
  refine ⟨⟨List.max?_mem (fun a b => max_choice a b) hm, ?_⟩, ?_, ?_⟩
  · exact (List.max?_le_iff (fun a b c => max_le_iff) hm).1 (le_refl m)
  · intro hle
    simp [medir_corriente, hm, hle]
  · intro hlt
    simp [medir_corriente, hm, hlt]

/-- The scenario sample window from the specification: samples
`[10, 11, 12, 13.1, 12]` (floats modelled as rationals). -/
def escenarioC1 : List ℚ := [10, 11, 12, 131/10, 12]

/-- Witness for C1 at the specification scenario: threshold `13`, window
maximum `13.1`, so the pump faults, stops and the reading stays `0`. -/
theorem C1_witness :
    escenarioC1.max? = some (131/10) ∧ (13 : ℚ) ≤ 131/10 ∧
    (medir_corriente (Bomba.mkInit 1 13 70) escenarioC1).estado_falla = true ∧
    (medir_corriente (Bomba.mkInit 1 13 70) escenarioC1).estado_bomba = false ∧
    (medir_corriente (Bomba.mkInit 1 13 70) escenarioC1).corriente = 0 := by
  have hm : escenarioC1.max? = some (131/10) := by
    norm_num [escenarioC1, List.max?_cons', List.foldl, max_def]
  have h := C1_medir_corriente_spec (Bomba.mkInit 1 13 70) escenarioC1 (131/10) hm
  have hle : (Bomba.mkInit 1 13 70).corriente_falla ≤ 131/10 := by
    norm_num [Bomba.mkInit]
  exact ⟨hm, hle, (h.2.1 hle).1, (h.2.1 hle).2.1, (h.2.1 hle).2.2⟩

/-- A faulted pump, as produced by `falla` on a fresh unit. -/
def bombaAveriada : Bomba := falla (Bomba.mkInit 1 13 70)

/-- C7 counterexample: `marcha` has no guard on `estado_falla`; called on a
faulted pump it does not refuse — it sets `estado_bomba = true`, so the claim
that `estado_bomba` remains `false` is false on the code. -/
theorem C7_counterexample :
    bombaAveriada.estado_falla = true ∧ (marcha bombaAveriada).estado_bomba = true :=
  ⟨rfl, rfl⟩

/-- C7 amended: calling `marcha` on a faulted pump performs no invalid-state
check: it unconditionally sets `estado_bomba = true` while `estado_falla`
stays latched. -/
theorem C7_amended_marcha_sin_guarda (b : Bomba) (h : b.estado_falla = true) :
    (marcha b).estado_bomba = true ∧ (marcha b).estado_falla = true :=
  ⟨rfl, by rw [marcha_estado_falla]; exact h⟩

/-- Witness for the amended C7 at a concrete faulted pump. -/
theorem C7_witness :
    (marcha bombaAveriada).estado_bomba = true ∧ (marcha bombaAveriada).estado_falla = true :=
  C7_amended_marcha_sin_guarda bombaAveriada rfl

/-- C8: a sensor communication error during `medir_temperatura` (the oracle
outcome `none`, caught by the bare `except:` that only resets the bus) leaves
the pump state completely unchanged: no fault transition, `estado_falla` and
`temperatura` untouched, and — the function being total — nothing propagates
to the caller. -/
theorem C8_error_comunicacion_tragado (b : Bomba) :
    medir_temperatura b none = b ∧
    (medir_temperatura b none).estado_falla = b.estado_falla ∧
    (medir_temperatura b none).temperatura = b.temperatura :=
  ⟨rfl, rfl, rfl⟩

/-- Python `str.center(width)` as used by `display` (lines 194, 196).
CPython semantics: a string at least `width` characters long is returned
unchanged (there is no truncation); a shorter one is padded with spaces,
`marg = width - len`, `left = marg / 2 + (marg & width & 1)` spaces on the
left and the rest on the right. -/
def pyCenter (s : String) (w : Nat) : String :=
  if w ≤ s.length then s
  else
    String.mk (List.replicate ((w - s.length) / 2 + ((w - s.length) &&& w &&& 1)) ' ')
      ++ s
      ++ String.mk (List.replicate ((w - s.length) -
          ((w - s.length) / 2 + ((w - s.length) &&& w &&& 1))) ' ')

/-- `display(linea1, linea2)` (lines 191-197): each line is centred to the
16-column LCD width with `str.center(16)`; the model returns the pair of
rendered lines that `lcd.putstr` receives. -/
def display (linea1 linea2 : String) : String × String :=
  (pyCenter linea1 16, pyCenter linea2 16)

/-- The rendered line of `pyCenter` has `max w s.length` characters: padding
never shortens a string, and an over-long string is passed through whole. -/
theorem pyCenter_length (s : String) (w : Nat) :
    (pyCenter s w).length = max w s.length := by
  unfold pyCenter
  by_cases h : w ≤ s.length
  · simp [h, Nat.max_eq_right h]
  · have hlt : s.length < w := Nat.lt_of_not_le h
    have hm : (w - s.length) / 2 + ((w - s.length) &&& w &&& 1) ≤ w - s.length := by
      have h1 : 1 ≤ w - s.length := by omega
      have hb : (w - s.length) &&& w &&& 1 ≤ 1 := Nat.and_le_right
      omega
    simp only [h, if_false, String.length_append, String.length_mk,
      List.length_replicate]
    omega

/-- C9 (code bug): the dual-fault alarm call at line 300 is
`display('Llamar al', 'servivcio técnico')`; its second line is a
17-character typo (the same message is spelled `servicio técnico`, 16
characters, at lines 329 and 360).  Since `str.center(16)` never truncates,
the rendered second line has 17 characters and overflows the 16-column
display, while the correctly spelled variant fits exactly. -/
theorem C9_linea_desbordada :
    (display "Llamar al" "servivcio técnico").2.length = 17 ∧
    ¬ (display "Llamar al" "servivcio técnico").2.length ≤ 16 ∧
    (display "Llamar al" "servicio técnico").2.length = 16 ∧
    (display "Llamar al" "servicio técnico").1.length = 16 :=
  ⟨by decide, by decide, by decide, by decide⟩

/-- `verificar_flotante()` (lines 248-259): reads the float switch level
(modelled as the argument `fl`), and against the remembered
`flotante_previo` detects a rising edge, incrementing the global `ciclo`
only then; it records the new level and returns it.  Result components:
(returned level, new `flotante_previo`, new `ciclo`). -/
def verificar_flotante (fl : Bool) (prev : Bool) (c : Nat) : Bool × Bool × Nat :=
  if fl then
    if !prev then (true, true, c + 1) else (true, true, c)
  else
    (false, false, c)

/-- Folding `verificar_flotante` over a whole sequence of float polls,
threading `flotante_previo` and `ciclo`; returns the final pair. -/
def pollSeq : List Bool → Bool → Nat → Bool × Nat
  | [], prev, c => (prev, c)
  | fl :: rest, prev, c =>
    pollSeq rest (verificar_flotante fl prev c).2.1 (verificar_flotante fl prev c).2.2

/-- Specification-side count of low→high transitions in a poll sequence,
relative to the remembered previous level. -/
def conteoFlancos : List Bool → Bool → Nat
  | [], _ => 0
  | fl :: rest, prev => (if fl && !prev then 1 else 0) + conteoFlancos rest fl

theorem verificar_flotante_eq (fl prev : Bool) (c : Nat) :
    verificar_flotante fl prev c = (fl, fl, if fl && !prev then c + 1 else c) := by
  cases fl <;> cases prev <;> simp [verificar_flotante]

/-- C4: on every poll, `verificar_flotante` returns the current level,
records it in `flotante_previo`, and increments `ciclo` exactly when the
level is high and the remembered level was low (a rising edge) — never on a
sustained-high or sustained-low tick; consequently, over any sequence of
polls, `ciclo` grows by exactly the number of low→high transitions. -/
theorem C4_flanco_de_subida :
    (∀ (fl prev : Bool) (c : Nat),
      verificar_flotante fl prev c = (fl, fl, if fl && !prev then c + 1 else c)) ∧
    (∀ (polls : List Bool) (prev : Bool) (c : Nat),
      (pollSeq polls prev c).2 = c + conteoFlancos polls prev) := by
  refine ⟨verificar_flotante_eq, ?_⟩
  intro polls
  induction polls with
  | nil => intro prev c; simp [pollSeq, conteoFlancos]
  | cons fl rest ih =>
    intro prev c
    rw [pollSeq, verificar_flotante_eq]
    simp only [conteoFlancos, ih]
    cases fl <;> cases prev <;> (simp; try omega)

/-- Observable actions of one loop tick: switch reads, the float poll, relay
commands, a pump's measurement pair, and display calls (static text or the
current/temperature readings screen). -/
inductive Event where
  | senseManual : Event
  | senseBomba1 : Event
  | senseFlotante : Event
  | marchaEv : Nat → Event
  | paradaEv : Nat → Event
  | medicionEv : Nat → Event
  | displayEv : String → String → Event
  | displayLecturas : Nat → ℚ → ℤ → Event
deriving DecidableEq

/-- Which of the three textually distinct terminal alarm loops is running:
the dual-fault branch (lines 293-301, with the line-300 typo) or the nested
loop inside a single-fault branch (lines 322-330 or 353-361). -/
inductive AlarmKind where
  | dual : AlarmKind
  | enRamaB1 : AlarmKind
  | enRamaB2 : AlarmKind
deriving DecidableEq

/-- Control location between loop iterations: the top of `main()`'s loop,
the top of the b1- or b2-fault supervision loop of `verificar_falla()`, or
one of its terminal alarm display loops. -/
inductive PC where
  | mainLoop : PC
  | faultB1 : PC
  | faultB2 : PC
  | alarma : AlarmKind → PC
deriving DecidableEq

/-- The mutable program state: the two pump objects `b1`, `b2`, the globals
`ciclo` and `flotante_previo` (lines 187-188), and the control location. -/
structure Sys where
  b1 : Bomba
  b2 : Bomba
  ciclo : Nat
  flotante_previo : Bool
  pc : PC
deriving DecidableEq

/-- Oracle inputs consumed during one loop iteration: the three switch
levels (each pin is read at most once per tick with a single level) and the
outcome of each pump's possible measurement pair. -/
structure Input where
  manual : Bool
  bomba1Sel : Bool
  flotante : Bool
  samplesB1 : List ℚ
  samplesB2 : List ℚ
  tempB1 : Option ℤ
  tempB2 : Option ℤ
deriving DecidableEq

/-- `marcha_manual()` (lines 227-245): in manual mode, stops the
non-selected pump, starts the selected one after the interlock delay and
shows the mode; otherwise does nothing.  Returns the new state, the Python
return value, and the emitted events. -/
def marcha_manual (i : Input) (s : Sys) : Sys × Bool × List Event :=
  if i.manual then
    if i.bomba1Sel then
      ({ s with b2 := parada s.b2, b1 := marcha s.b1 }, true,
        [Event.senseManual, Event.senseBomba1, Event.paradaEv 2, Event.marchaEv 1,
         Event.displayEv "Modo: Manual" "Bomba 1: ON"])
    else
      ({ s with b1 := parada s.b1, b2 := marcha s.b2 }, true,
        [Event.senseManual, Event.senseBomba1, Event.paradaEv 1, Event.marchaEv 2,
         Event.displayEv "Modo: Manual" "Bomba 2: ON"])
  else (s, false, [Event.senseManual])

/-- `marcha_auto()` (lines 262-286): when not in manual mode, polls the
float via `verificar_flotante` (this updates `ciclo` and `flotante_previo`);
on float active starts the pump selected by the parity of the updated
`ciclo` after stopping the other, on float inactive stops both pumps and
shows the waiting screen; returns `True`.  In manual mode it returns `False`
and touches nothing. -/
def marcha_auto (i : Input) (s : Sys) : Sys × Bool × List Event :=
  if i.manual then (s, false, [Event.senseManual])
  else
    let r := verificar_flotante i.flotante s.flotante_previo s.ciclo
    let s1 : Sys := { s with flotante_previo := r.2.1, ciclo := r.2.2 }
    if r.1 then
      if s1.ciclo % 2 = 0 then
        ({ s1 with b2 := parada s1.b2, b1 := marcha s1.b1 }, true,
          [Event.senseManual, Event.senseFlotante, Event.paradaEv 2, Event.marchaEv 1,
           Event.displayEv "Modo: Auto" "Bomba 1: ON"])
      else
        ({ s1 with b1 := parada s1.b1, b2 := marcha s1.b2 }, true,
          [Event.senseManual, Event.senseFlotante, Event.paradaEv 1, Event.marchaEv 2,
           Event.displayEv "Modo: Auto" "Bomba 2: ON"])
    else
      ({ s1 with b1 := parada s1.b1, b2 := parada s1.b2 }, true,
        [Event.senseManual, Event.senseFlotante, Event.paradaEv 1, Event.paradaEv 2,
         Event.displayEv "Esperando..." ""])

/-- Branch selection on entry to `verificar_falla()` (lines 289-302, 333):
the dual-fault branch stops both pumps and enters the terminal alarm loop; a
single-fault branch stops the faulted pump and enters its supervision loop;
with no fault it returns `None` to the caller, leaving the location
unchanged.  The loop bodies themselves run on subsequent ticks. -/
def verificar_falla_entrada (s : Sys) : Sys × List Event :=
  if s.b1.estado_falla && s.b2.estado_falla then
    ({ s with b1 := parada s.b1, b2 := parada s.b2, pc := PC.alarma AlarmKind.dual },
      [Event.paradaEv 1, Event.paradaEv 2])
  else if s.b1.estado_falla then
    ({ s with b1 := parada s.b1, pc := PC.faultB1 }, [Event.paradaEv 1])
  else if s.b2.estado_falla then
    ({ s with b2 := parada s.b2, pc := PC.faultB2 }, [Event.paradaEv 2])
  else (s, [])

/-- The pump-1 block of `main()` (lines 377-390): run the measurement pair;
if no fault resulted, show the readings, otherwise hand control to
`verificar_falla`. -/
def bloque_b1 (i : Input) (s : Sys) : Sys × List Event :=
  let b1 := medicion s.b1 i.samplesB1 i.tempB1
  let s1 : Sys := { s with b1 := b1 }
  if b1.estado_falla then
    let r := verificar_falla_entrada s1
    (r.1, Event.medicionEv 1 :: r.2)
  else
    (s1, [Event.medicionEv 1, Event.displayLecturas 1 b1.corriente b1.temperatura])

/-- The pump-2 block of `main()` (lines 391-404), symmetric to `bloque_b1`. -/
def bloque_b2 (i : Input) (s : Sys) : Sys × List Event :=
  let b2 := medicion s.b2 i.samplesB2 i.tempB2
  let s1 : Sys := { s with b2 := b2 }
  if b2.estado_falla then
    let r := verificar_falla_entrada s1
    (r.1, Event.medicionEv 2 :: r.2)
  else
    (s1, [Event.medicionEv 2, Event.displayLecturas 2 b2.corriente b2.temperatura])

/-- One iteration of `main()`'s control loop (lines 371-404):
`marcha_manual()`, then `marcha_auto()`, the running flags are captured, and
each pump captured as running is measured; a fault hands control to
`verificar_falla`, which never returns from a fault branch, so the rest of
the iteration is skipped (witnessed by the control location change). -/
def step_main (i : Input) (s : Sys) : Sys × List Event :=
  let m := marcha_manual i s
  let a := marcha_auto i m.1
  let b1m := a.1.b1.estado_bomba
  let b2m := a.1.b2.estado_bomba
  if b1m then
    let r1 := bloque_b1 i a.1
    if r1.1.pc = s.pc then
      if b2m then
        let r2 := bloque_b2 i r1.1
        (r2.1, m.2.2 ++ a.2.2 ++ r1.2 ++ r2.2)
      else (r1.1, m.2.2 ++ a.2.2 ++ r1.2)
    else (r1.1, m.2.2 ++ a.2.2 ++ r1.2)
  else
    if b2m then
      let r2 := bloque_b2 i a.1
      (r2.1, m.2.2 ++ a.2.2 ++ r2.2)
    else (a.1, m.2.2 ++ a.2.2)

/-- One iteration of the `while True` supervision loop of the
`elif b1.estado_falla` branch of `verificar_falla()` (lines 304-332): poll
the float; while active and pump 2 healthy, run pump 2 alone and measure it;
if pump 2 is found faulted too, fall into the nested terminal alarm loop;
while the float is inactive, stop pump 2 and keep polling. -/
def step_faultB1 (i : Input) (s : Sys) : Sys × List Event :=
  let r := verificar_flotante i.flotante s.flotante_previo s.ciclo
  let s1 : Sys := { s with flotante_previo := r.2.1, ciclo := r.2.2 }
  if r.1 then
    if s1.b2.estado_falla then
      ({ s1 with pc := PC.alarma AlarmKind.enRamaB1 }, [Event.senseFlotante])
    else
      let b2 := medicion (marcha s1.b2) i.samplesB2 i.tempB2
      let s2 : Sys := { s1 with b2 := b2 }
      if b2.estado_falla then
        (s2, [Event.senseFlotante, Event.marchaEv 2,
              Event.displayEv "Modo: Auto" "Bomba 2: ON", Event.medicionEv 2])
      else
        (s2, [Event.senseFlotante, Event.marchaEv 2,
              Event.displayEv "Modo: Auto" "Bomba 2: ON", Event.medicionEv 2,
              Event.displayLecturas 2 b2.corriente b2.temperatura])
  else
    ({ s1 with b2 := parada s1.b2 }, [Event.senseFlotante, Event.paradaEv 2])

/-- One iteration of the supervision loop of the `elif b2.estado_falla`
branch of `verificar_falla()` (lines 335-363), symmetric to `step_faultB1`. -/
def step_faultB2 (i : Input) (s : Sys) : Sys × List Event :=
  let r := verificar_flotante i.flotante s.flotante_previo s.ciclo
  let s1 : Sys := { s with flotante_previo := r.2.1, ciclo := r.2.2 }
  if r.1 then
    if s1.b1.estado_falla then
      ({ s1 with pc := PC.alarma AlarmKind.enRamaB2 }, [Event.senseFlotante])
    else
      let b1 := medicion (marcha s1.b1) i.samplesB1 i.tempB1
      let s2 : Sys := { s1 with b1 := b1 }
      if b1.estado_falla then
        (s2, [Event.senseFlotante, Event.marchaEv 1,
              Event.displayEv "Modo: Auto" "Bomba 1: ON", Event.medicionEv 1])
      else
        (s2, [Event.senseFlotante, Event.marchaEv 1,
              Event.displayEv "Modo: Auto" "Bomba 1: ON", Event.medicionEv 1,
              Event.displayLecturas 1 b1.corriente b1.temperatura])
  else
    ({ s1 with b1 := parada s1.b1 }, [Event.senseFlotante, Event.paradaEv 1])

/-- One iteration of a terminal alarm display loop: two display calls and
two sleeps; no sensing, no relay command, no state change.  The dual-fault
branch shows the 17-character typo line of line 300. -/
def step_alarma (k : AlarmKind) : List Event :=
  match k with
  | AlarmKind.dual =>
    [Event.displayEv "Falla en" "ambas bombas",
     Event.displayEv "Llamar al" "servivcio técnico"]
  | AlarmKind.enRamaB1 =>
    [Event.displayEv "Falla en" "ambas bombas",
     Event.displayEv "Llamar al" "servicio técnico"]
  | AlarmKind.enRamaB2 =>
    [Event.displayEv "Falla en" "ambas bombas",
     Event.displayEv "Llamar al" "servicio técnico"]

/-- One tick of the whole program: one iteration of whichever loop the
control location is in. -/
def step (i : Input) (s : Sys) : Sys × List Event :=
  match s.pc with
  | PC.mainLoop => step_main i s
  | PC.faultB1 => step_faultB1 i s
  | PC.faultB2 => step_faultB2 i s
  | PC.alarma k => (s, step_alarma k)

/-- The state right after `inicio()` (lines 200-212, 369-370): both pumps
stopped and unfaulted, `ciclo = 0`, `flotante_previo = False`, at the top of
`main()`'s loop.  The thresholds come from the construction of `b1` and `b2`
(lines 177-178): current threshold `13`, temperature threshold `70`. -/
def sysInit : Sys :=
  { b1 := Bomba.mkInit 1 13 70, b2 := Bomba.mkInit 2 13 70,
    ciclo := 0, flotante_previo := false, pc := PC.mainLoop }

/-- Iterated `step` over a list of per-tick inputs. -/
def run (l : List Input) (s : Sys) : Sys :=
  match l with
  | [] => s
  | i :: rest => run rest (step i s).1

/-- Concatenated events of the steps over a list of inputs. -/
def traceEvents (l : List Input) (s : Sys) : List Event :=
  match l with
  | [] => []
  | i :: rest => (step i s).2 ++ traceEvents rest (step i s).1

/-- States reachable from `sysInit` by `step`. -/
inductive Reachable : Sys → Prop where
  | base : Reachable sysInit
  | next (i : Input) {s : Sys} : Reachable s → Reachable (step i s).1

/-- C5: for every tick with the manual switch inactive, `marcha_auto`
returns `True` and: with the float active it stops the non-selected pump
and starts pump 1 when the (just updated) `ciclo` is even, pump 2 when it
is odd, showing the mode; with the float inactive it stops both pumps and
shows the waiting screen.  With the manual switch active it returns `False`
and changes nothing (the interlock sleeps are timing and are outside the
state model). -/
theorem C5_marcha_auto_spec (i : Input) (s : Sys) :
    (i.manual = true →
      marcha_auto i s = (s, false, [Event.senseManual])) ∧
    (i.manual = false →
      (marcha_auto i s).2.1 = true ∧
      (marcha_auto i s).1.ciclo =
        (verificar_flotante i.flotante s.flotante_previo s.ciclo).2.2 ∧
      (i.flotante = false →
        (marcha_auto i s).1.b1 = parada s.b1 ∧
        (marcha_auto i s).1.b2 = parada s.b2 ∧
        Event.displayEv "Esperando..." "" ∈ (marcha_auto i s).2.2) ∧
      (i.flotante = true →
        ((marcha_auto i s).1.ciclo % 2 = 0 →
          (marcha_auto i s).1.b1 = marcha s.b1 ∧
          (marcha_auto i s).1.b2 = parada s.b2 ∧
          Event.displayEv "Modo: Auto" "Bomba 1: ON" ∈ (marcha_auto i s).2.2) ∧
        ((marcha_auto i s).1.ciclo % 2 ≠ 0 →
          (marcha_auto i s).1.b2 = marcha s.b2 ∧
          (marcha_auto i s).1.b1 = parada s.b1 ∧
          Event.displayEv "Modo: Auto" "Bomba 2: ON" ∈ (marcha_auto i s).2.2))) := by
  by_cases him : i.manual
  · refine ⟨fun _ => ?_, fun hc => absurd him (by simp [hc])⟩
    simp [marcha_auto, him]
  · rw [Bool.not_eq_true] at him
    refine ⟨fun hc => absurd hc (by simp [him]), fun _ => ?_⟩
    by_cases hfl : i.flotante
    · by_cases hpar :
        (verificar_flotante i.flotante s.flotante_previo s.ciclo).2.2 % 2 = 0 <;>
        simp [marcha_auto, him, hfl, verificar_flotante_eq] at hpar ⊢ <;>
        simp [hpar]
    · rw [Bool.not_eq_true] at hfl
      simp [marcha_auto, him, hfl, verificar_flotante_eq]

/-- Witness for C5: a concrete automatic tick from the initial state with
the float active; `ciclo` becomes `1` (odd), so pump 2 starts. -/
theorem C5_witness :
    (marcha_auto
        { manual := false, bomba1Sel := false, flotante := true, samplesB1 := [],
          samplesB2 := [], tempB1 := none, tempB2 := none } sysInit).2.1 = true ∧
    (marcha_auto
        { manual := false, bomba1Sel := false, flotante := true, samplesB1 := [],
          samplesB2 := [], tempB1 := none, tempB2 := none } sysInit).1.b2 =
      marcha sysInit.b2 := by
  have h := C5_marcha_auto_spec
    { manual := false, bomba1Sel := false, flotante := true, samplesB1 := [],
      samplesB2 := [], tempB1 := none, tempB2 := none } sysInit
  exact ⟨(h.2 rfl).1, ((((h.2 rfl).2.2.2) rfl).2 (by decide)).1⟩

/-- An automatic-mode tick as seen by `marcha_auto`: manual switch inactive,
float level `fl`; the selector and measurement oracles are unused. -/
def entradaAuto (fl : Bool) : Input :=
  { manual := false, bomba1Sel := false, flotante := fl,
    samplesB1 := [], samplesB2 := [], tempB1 := none, tempB2 := none }

/-- The state after a sequence of `marcha_auto` ticks with the given float
levels (automatic mode throughout). -/
def autoSeq (ls : List Bool) (s : Sys) : Sys :=
  match ls with
  | [] => s
  | fl :: rest => autoSeq rest (marcha_auto (entradaAuto fl) s).1

/-- C6 counterexample: polling the float low→high→low→high from the initial
state (`ciclo = 0`, `flotante_previo = False`) in automatic mode, the first
activation starts pump 2 (the rising edge bumps `ciclo` to `1`, odd, before
the parity test) and the second activation starts pump 1 (`ciclo = 2`,
even) — so the second activation does NOT select the same pump as the
first, contrary to the claim. -/
theorem C6_counterexample :
    (autoSeq [false, true] sysInit).b2.estado_bomba = true ∧
    (autoSeq [false, true] sysInit).b1.estado_bomba = false ∧
    (autoSeq [false, true, false, true] sysInit).b1.estado_bomba = true ∧
    (autoSeq [false, true, false, true] sysInit).b2.estado_bomba = false :=
  ⟨by decide, by decide, by decide, by decide⟩

/-- C6 amended: after the low→high→low→high sequence `ciclo = 2`; the second
activation selects the pump matching parity 0, namely pump 1 — which is the
other pump than the first activation's (pump 2, selected at `ciclo = 1`,
parity 1). -/
theorem C6_amended_alternancia :
    (autoSeq [false, true] sysInit).ciclo = 1 ∧
    (autoSeq [false, true] sysInit).b2.estado_bomba = true ∧
    (autoSeq [false, true, false, true] sysInit).ciclo = 2 ∧
    (autoSeq [false, true, false, true] sysInit).ciclo % 2 = 0 ∧
    (autoSeq [false, true, false, true] sysInit).b1.estado_bomba = true :=
  ⟨by decide, by decide, by decide, by decide, by decide⟩

/-- Automatic ticks with the float low leave the initial state unchanged:
`verificar_flotante` keeps `ciclo = 0` and `flotante_previo = False`, and
stopping the already stopped pumps is the identity. -/
theorem autoSeq_low_fija (n : Nat) :
    autoSeq (List.replicate n false) sysInit = sysInit := by
  induction n with
  | zero => rfl
  | succ k ih =>
    rw [List.replicate_succ, autoSeq]
    have h : (marcha_auto (entradaAuto false) sysInit).1 = sysInit := by decide
    rw [h, ih]

/-- C10: from the startup state (`ciclo = 0`, `flotante_previo = False`),
after any number of float-low polls the first automatic activation — the
first tick whose float poll reads high — starts pump 2, not pump 1: the
rising edge increments `ciclo` to `1` before the parity test, so the odd
branch runs. -/
theorem C10_primera_activacion_bomba2 (n : Nat) :
    ((marcha_auto (entradaAuto true) (autoSeq (List.replicate n false) sysInit)).1).b2.estado_bomba
        = true ∧
    ((marcha_auto (entradaAuto true) (autoSeq (List.replicate n false) sysInit)).1).b1.estado_bomba
        = false ∧
    ((marcha_auto (entradaAuto true) (autoSeq (List.replicate n false) sysInit)).1).ciclo = 1 ∧
    Event.marchaEv 2 ∈ (marcha_auto (entradaAuto true) (autoSeq (List.replicate n false) sysInit)).2.2 ∧
    Event.marchaEv 1 ∉ (marcha_auto (entradaAuto true) (autoSeq (List.replicate n false) sysInit)).2.2 := by
  rw [autoSeq_low_fija]
  refine ⟨by decide, by decide, by decide, by decide, by decide⟩

theorem marcha_manual_b1_falla (i : Input) (s : Sys) :
    ((marcha_manual i s).1).b1.estado_falla = s.b1.estado_falla := by
  by_cases hm : i.manual <;> by_cases hs : i.bomba1Sel <;> simp [marcha_manual, hm, hs]

theorem marcha_manual_b2_falla (i : Input) (s : Sys) :
    ((marcha_manual i s).1).b2.estado_falla = s.b2.estado_falla := by
  by_cases hm : i.manual <;> by_cases hs : i.bomba1Sel <;> simp [marcha_manual, hm, hs]

theorem marcha_manual_pc (i : Input) (s : Sys) :
    ((marcha_manual i s).1).pc = s.pc := by
  by_cases hm : i.manual <;> by_cases hs : i.bomba1Sel <;> simp [marcha_manual, hm, hs]

theorem marcha_auto_b1_falla (i : Input) (s : Sys) :
    ((marcha_auto i s).1).b1.estado_falla = s.b1.estado_falla := by
  by_cases hm : i.manual
  · simp [marcha_auto, hm]
  · by_cases hfl : i.flotante <;>
      by_cases hp : (verificar_flotante i.flotante s.flotante_previo s.ciclo).2.2 % 2 = 0 <;>
      simp [marcha_auto, hm, hfl, verificar_flotante_eq] at hp ⊢ <;> simp [hp]

theorem marcha_auto_b2_falla (i : Input) (s : Sys) :
    ((marcha_auto i s).1).b2.estado_falla = s.b2.estado_falla := by
  by_cases hm : i.manual
  · simp [marcha_auto, hm]
  · by_cases hfl : i.flotante <;>
      by_cases hp : (verificar_flotante i.flotante s.flotante_previo s.ciclo).2.2 % 2 = 0 <;>
      simp [marcha_auto, hm, hfl, verificar_flotante_eq] at hp ⊢ <;> simp [hp]

theorem marcha_auto_pc (i : Input) (s : Sys) :
    ((marcha_auto i s).1).pc = s.pc := by
  by_cases hm : i.manual
  · simp [marcha_auto, hm]
  · by_cases hfl : i.flotante <;>
      by_cases hp : (verificar_flotante i.flotante s.flotante_previo s.ciclo).2.2 % 2 = 0 <;>
      simp [marcha_auto, hm, hfl, verificar_flotante_eq] at hp ⊢ <;> simp [hp]

/-- Inductive invariant of the control program: a faulted pump is stopped,
the main loop only runs with both pumps healthy, and each single-fault
supervision loop has its own pump faulted. -/
def Invariante (s : Sys) : Prop :=
  (s.b1.estado_falla = true → s.b1.estado_bomba = false) ∧
  (s.b2.estado_falla = true → s.b2.estado_bomba = false) ∧
  (s.pc = PC.mainLoop → s.b1.estado_falla = false ∧ s.b2.estado_falla = false) ∧
  (s.pc = PC.faultB1 → s.b1.estado_falla = true) ∧
  (s.pc = PC.faultB2 → s.b2.estado_falla = true)

theorem Invariante_sysInit : Invariante sysInit := by
  refine ⟨?_, ?_, ?_, ?_, ?_⟩ <;> intro h <;> simp_all [sysInit, Bomba.mkInit]

/-- Outcome of the pump-1 block of `main()` from a healthy state: either no
fault arose and control stays in the main loop, or pump 1 faulted and
`verificar_falla` moved control to its b1 supervision loop, with pump 1
stopped and pump 2 untouched. -/
theorem bloque_b1_casos (i : Input) (t : Sys) (hpc : t.pc = PC.mainLoop)
    (_h1 : t.b1.estado_falla = false) (h2 : t.b2.estado_falla = false) :
    ((bloque_b1 i t).1.pc = PC.mainLoop ∧ (bloque_b1 i t).1.b1.estado_falla = false ∧
      (bloque_b1 i t).1.b2 = t.b2) ∨
    ((bloque_b1 i t).1.pc = PC.faultB1 ∧ (bloque_b1 i t).1.b1.estado_falla = true ∧
      (bloque_b1 i t).1.b1.estado_bomba = false ∧ (bloque_b1 i t).1.b2 = t.b2) := by
  by_cases hf : (medicion t.b1 i.samplesB1 i.tempB1).estado_falla = true
  · right
    simp [bloque_b1, hf, verificar_falla_entrada, h2]
  · left
    rw [Bool.not_eq_true] at hf
    simp [bloque_b1, hf, hpc]

/-- Outcome of the pump-2 block of `main()` from a state with pump 1
healthy, symmetric to `bloque_b1_casos`. -/
theorem bloque_b2_casos (i : Input) (t : Sys) (hpc : t.pc = PC.mainLoop)
    (h1 : t.b1.estado_falla = false) (_h2 : t.b2.estado_falla = false) :
    ((bloque_b2 i t).1.pc = PC.mainLoop ∧ (bloque_b2 i t).1.b2.estado_falla = false ∧
      (bloque_b2 i t).1.b1 = t.b1) ∨
    ((bloque_b2 i t).1.pc = PC.faultB2 ∧ (bloque_b2 i t).1.b2.estado_falla = true ∧
      (bloque_b2 i t).1.b2.estado_bomba = false ∧ (bloque_b2 i t).1.b1 = t.b1) := by
  by_cases hf : (medicion t.b2 i.samplesB2 i.tempB2).estado_falla = true
  · right
    simp [bloque_b2, hf, verificar_falla_entrada, h1]
  · left
    rw [Bool.not_eq_true] at hf
    simp [bloque_b2, hf, hpc]

/-- Helper: establish the invariant from explicit facts about the fields. -/
theorem invariante_de_hechos (x : Sys)
    (hf1 : x.b1.estado_falla = true → x.b1.estado_bomba = false)
    (hf2 : x.b2.estado_falla = true → x.b2.estado_bomba = false)
    (hm : x.pc = PC.mainLoop → x.b1.estado_falla = false ∧ x.b2.estado_falla = false)
    (hq1 : x.pc = PC.faultB1 → x.b1.estado_falla = true)
    (hq2 : x.pc = PC.faultB2 → x.b2.estado_falla = true) : Invariante x :=
  ⟨hf1, hf2, hm, hq1, hq2⟩

/-- One main-loop iteration from a healthy state re-establishes the
invariant. -/
theorem step_main_invariante (i : Input) (s : Sys) (hpc : s.pc = PC.mainLoop)
    (h1 : s.b1.estado_falla = false) (h2 : s.b2.estado_falla = false) :
    Invariante (step_main i s).1 := by
  set t := (marcha_auto i (marcha_manual i s).1).1 with hts
  have ht1 : t.b1.estado_falla = false := by
    rw [hts, marcha_auto_b1_falla, marcha_manual_b1_falla]; exact h1
  have ht2 : t.b2.estado_falla = false := by
    rw [hts, marcha_auto_b2_falla, marcha_manual_b2_falla]; exact h2
  have htpc : t.pc = PC.mainLoop := by
    rw [hts, marcha_auto_pc, marcha_manual_pc]; exact hpc
  by_cases hb1m : t.b1.estado_bomba = true
  · rcases bloque_b1_casos i t htpc ht1 ht2 with ⟨hp, ha, hb⟩ | ⟨hp, ha, hab, hb⟩
    · have hcond : (bloque_b1 i t).1.pc = s.pc := by rw [hp, hpc]
      by_cases hb2m : t.b2.estado_bomba = true
      · have hfinal : (step_main i s).1 = (bloque_b2 i (bloque_b1 i t).1).1 := by
          simp only [step_main]
          rw [if_pos hb1m, if_pos hcond, if_pos hb2m]
        have hq2 : (bloque_b1 i t).1.b2.estado_falla = false := by rw [hb]; exact ht2
        rw [hfinal]
        rcases bloque_b2_casos i (bloque_b1 i t).1 hp ha hq2 with
          ⟨hp2, ha2, hb2⟩ | ⟨hp2, ha2, hab2, hb2⟩
        · refine invariante_de_hechos _ ?_ ?_ (fun _ => ⟨?_, ha2⟩) ?_ ?_
          · intro hx; rw [hb2, ha] at hx; cases hx
          · intro hx; rw [ha2] at hx; cases hx
          · rw [hb2]; exact ha
          · intro hx; rw [hp2] at hx; cases hx
          · intro hx; rw [hp2] at hx; cases hx
        · refine invariante_de_hechos _ ?_ (fun _ => hab2) ?_ ?_ (fun _ => ha2)
          · intro hx; rw [hb2, ha] at hx; cases hx
          · intro hx; rw [hp2] at hx; cases hx
          · intro hx; rw [hp2] at hx; cases hx
      · have hfinal : (step_main i s).1 = (bloque_b1 i t).1 := by
          simp only [step_main]
          rw [if_pos hb1m, if_pos hcond, if_neg hb2m]
        rw [hfinal]
        refine invariante_de_hechos _ ?_ ?_ (fun _ => ⟨ha, ?_⟩) ?_ ?_
        · intro hx; rw [ha] at hx; cases hx
        · intro hx; rw [hb, ht2] at hx; cases hx
        · rw [hb]; exact ht2
        · intro hx; rw [hp] at hx; cases hx
        · intro hx; rw [hp] at hx; cases hx
    · have hcond : ¬ (bloque_b1 i t).1.pc = s.pc := by rw [hp, hpc]; simp
      have hfinal : (step_main i s).1 = (bloque_b1 i t).1 := by
        simp only [step_main]
        rw [if_pos hb1m, if_neg hcond]
      rw [hfinal]
      refine invariante_de_hechos _ (fun _ => hab) ?_ ?_ (fun _ => ha) ?_
      · intro hx; rw [hb, ht2] at hx; cases hx
      · intro hx; rw [hp] at hx; cases hx
      · intro hx; rw [hp] at hx; cases hx
  · by_cases hb2m : t.b2.estado_bomba = true
    · have hfinal : (step_main i s).1 = (bloque_b2 i t).1 := by
        simp only [step_main]
        rw [if_neg hb1m, if_pos hb2m]
      rw [hfinal]
      rcases bloque_b2_casos i t htpc ht1 ht2 with
        ⟨hp2, ha2, hb2⟩ | ⟨hp2, ha2, hab2, hb2⟩
      · refine invariante_de_hechos _ ?_ ?_ (fun _ => ⟨?_, ha2⟩) ?_ ?_
        · intro hx; rw [hb2, ht1] at hx; cases hx
        · intro hx; rw [ha2] at hx; cases hx
        · rw [hb2]; exact ht1
        · intro hx; rw [hp2] at hx; cases hx
        · intro hx; rw [hp2] at hx; cases hx
      · refine invariante_de_hechos _ ?_ (fun _ => hab2) ?_ ?_ (fun _ => ha2)
        · intro hx; rw [hb2, ht1] at hx; cases hx
        · intro hx; rw [hp2] at hx; cases hx
        · intro hx; rw [hp2] at hx; cases hx
    · have hfinal : (step_main i s).1 = t := by
        simp only [step_main]
        rw [if_neg hb1m, if_neg hb2m]
      rw [hfinal]
      refine invariante_de_hechos _ ?_ ?_ (fun _ => ⟨ht1, ht2⟩) ?_ ?_
      · intro hx; rw [ht1] at hx; cases hx
      · intro hx; rw [ht2] at hx; cases hx
      · intro hx; rw [htpc] at hx; cases hx
      · intro hx; rw [htpc] at hx; cases hx

theorem verificar_flotante_fst (fl prev : Bool) (c : Nat) :
    (verificar_flotante fl prev c).1 = fl := by
  cases fl <;> cases prev <;> simp [verificar_flotante]

/-- One iteration of the b1-fault supervision loop preserves the invariant. -/
theorem step_faultB1_invariante (i : Input) (s : Sys) (hpc : s.pc = PC.faultB1)
    (h1 : s.b1.estado_falla = true) (h1b : s.b1.estado_bomba = false)
    (h2 : s.b2.estado_falla = true → s.b2.estado_bomba = false) :
    Invariante (step_faultB1 i s).1 := by
  by_cases hfl : i.flotante = true
  · by_cases hb2 : s.b2.estado_falla = true
    · have hfinal : (step_faultB1 i s).1 =
          { s with
            flotante_previo := (verificar_flotante i.flotante s.flotante_previo s.ciclo).2.1,
            ciclo := (verificar_flotante i.flotante s.flotante_previo s.ciclo).2.2,
            pc := PC.alarma AlarmKind.enRamaB1 } := by
        simp only [step_faultB1]
        rw [verificar_flotante_fst, if_pos hfl, if_pos hb2]
      rw [hfinal]
      refine invariante_de_hechos _ (fun _ => h1b) (fun hx => h2 hx) ?_ ?_ ?_ <;>
        intro hx <;> cases hx
    · have hb2' : s.b2.estado_falla = false := by
        revert hb2; cases s.b2.estado_falla <;> simp
      have hfinal : (step_faultB1 i s).1 =
          { s with
            flotante_previo := (verificar_flotante i.flotante s.flotante_previo s.ciclo).2.1,
            ciclo := (verificar_flotante i.flotante s.flotante_previo s.ciclo).2.2,
            b2 := medicion (marcha s.b2) i.samplesB2 i.tempB2 } := by
        simp only [step_faultB1]
        rw [verificar_flotante_fst, if_pos hfl, if_neg hb2]
        by_cases hf2 : (medicion (marcha s.b2) i.samplesB2 i.tempB2).estado_falla = true
        · rw [if_pos hf2]
        · rw [if_neg hf2]
      rw [hfinal]
      refine invariante_de_hechos _ (fun _ => h1b) ?_ ?_ (fun _ => h1) ?_
      · exact medicion_inv (marcha s.b2) i.samplesB2 i.tempB2
          (fun hc => by rw [marcha_estado_falla, hb2'] at hc; cases hc)
      · intro hx; rw [hpc] at hx; cases hx
      · intro hx; rw [hpc] at hx; cases hx
  · have hfinal : (step_faultB1 i s).1 =
        { s with
          flotante_previo := (verificar_flotante i.flotante s.flotante_previo s.ciclo).2.1,
          ciclo := (verificar_flotante i.flotante s.flotante_previo s.ciclo).2.2,
          b2 := parada s.b2 } := by
      simp only [step_faultB1]
      rw [verificar_flotante_fst, if_neg hfl]
    rw [hfinal]
    refine invariante_de_hechos _ (fun _ => h1b) (fun _ => rfl) ?_ (fun _ => h1) ?_
    · intro hx; rw [hpc] at hx; cases hx
    · intro hx; rw [hpc] at hx; cases hx

/-- One iteration of the b2-fault supervision loop preserves the invariant. -/
theorem step_faultB2_invariante (i : Input) (s : Sys) (hpc : s.pc = PC.faultB2)
    (h2 : s.b2.estado_falla = true) (h2b : s.b2.estado_bomba = false)
    (h1 : s.b1.estado_falla = true → s.b1.estado_bomba = false) :
    Invariante (step_faultB2 i s).1 := by
  by_cases hfl : i.flotante = true
  · by_cases hb1 : s.b1.estado_falla = true
    · have hfinal : (step_faultB2 i s).1 =
          { s with
            flotante_previo := (verificar_flotante i.flotante s.flotante_previo s.ciclo).2.1,
            ciclo := (verificar_flotante i.flotante s.flotante_previo s.ciclo).2.2,
            pc := PC.alarma AlarmKind.enRamaB2 } := by
        simp only [step_faultB2]
        rw [verificar_flotante_fst, if_pos hfl, if_pos hb1]
      rw [hfinal]
      refine invariante_de_hechos _ (fun hx => h1 hx) (fun _ => h2b) ?_ ?_ ?_ <;>
        intro hx <;> cases hx
    · have hb1' : s.b1.estado_falla = false := by
        revert hb1; cases s.b1.estado_falla <;> simp
      have hfinal : (step_faultB2 i s).1 =
          { s with
            flotante_previo := (verificar_flotante i.flotante s.flotante_previo s.ciclo).2.1,
            ciclo := (verificar_flotante i.flotante s.flotante_previo s.ciclo).2.2,
            b1 := medicion (marcha s.b1) i.samplesB1 i.tempB1 } := by
        simp only [step_faultB2]
        rw [verificar_flotante_fst, if_pos hfl, if_neg hb1]
        by_cases hf1 : (medicion (marcha s.b1) i.samplesB1 i.tempB1).estado_falla = true
        · rw [if_pos hf1]
        · rw [if_neg hf1]
      rw [hfinal]
      refine invariante_de_hechos _ ?_ (fun _ => h2b) ?_ ?_ (fun _ => h2)
      · exact medicion_inv (marcha s.b1) i.samplesB1 i.tempB1
          (fun hc => by rw [marcha_estado_falla, hb1'] at hc; cases hc)
      · intro hx; rw [hpc] at hx; cases hx
      · intro hx; rw [hpc] at hx; cases hx
  · have hfinal : (step_faultB2 i s).1 =
        { s with
          flotante_previo := (verificar_flotante i.flotante s.flotante_previo s.ciclo).2.1,
          ciclo := (verificar_flotante i.flotante s.flotante_previo s.ciclo).2.2,
          b1 := parada s.b1 } := by
      simp only [step_faultB2]
      rw [verificar_flotante_fst, if_neg hfl]
    rw [hfinal]
    refine invariante_de_hechos _ (fun _ => rfl) (fun _ => h2b) ?_ ?_ (fun _ => h2)
    · intro hx; rw [hpc] at hx; cases hx
    · intro hx; rw [hpc] at hx; cases hx

/-- Every `step` preserves the invariant. -/
theorem paso_invariante (i : Input) (s : Sys) (h : Invariante s) :
    Invariante (step i s).1 := by
  obtain ⟨hI1, hI2, hMain, hF1, hF2⟩ := h
  cases hpc : s.pc with
  | mainLoop =>
    have hstep : step i s = step_main i s := by unfold step; rw [hpc]
    rw [hstep]
    exact step_main_invariante i s hpc (hMain hpc).1 (hMain hpc).2
  | faultB1 =>
    have hstep : step i s = step_faultB1 i s := by unfold step; rw [hpc]
    rw [hstep]
    exact step_faultB1_invariante i s hpc (hF1 hpc) (hI1 (hF1 hpc)) hI2
  | faultB2 =>
    have hstep : step i s = step_faultB2 i s := by unfold step; rw [hpc]
    rw [hstep]
    exact step_faultB2_invariante i s hpc (hF2 hpc) (hI2 (hF2 hpc)) hI1
  | alarma k =>
    have hstep : step i s = (s, step_alarma k) := by unfold step; rw [hpc]
    rw [hstep]
    exact ⟨hI1, hI2, hMain, hF1, hF2⟩

/-- Every reachable state satisfies the invariant. -/
theorem reachable_invariante (s : Sys) (h : Reachable s) : Invariante s := by
  induction h with
  | base => exact Invariante_sysInit
  | next i hr ih => exact paso_invariante _ _ ih

/-- The b1 supervision loop never touches pump 1. -/
theorem step_faultB1_b1_eq (i : Input) (s : Sys) :
    ((step_faultB1 i s).1).b1 = s.b1 := by
  simp only [step_faultB1]
  split
  · split
    · rfl
    · split
      · rfl
      · rfl
  · rfl

/-- The b1 supervision loop never emits a start command for pump 1. -/
theorem step_faultB1_sin_marcha1 (i : Input) (s : Sys) :
    Event.marchaEv 1 ∉ (step_faultB1 i s).2 := by
  simp only [step_faultB1]
  split
  · split
    · simp
    · split
      · simp
      · simp
  · simp

/-- The b2 supervision loop never touches pump 2. -/
theorem step_faultB2_b2_eq (i : Input) (s : Sys) :
    ((step_faultB2 i s).1).b2 = s.b2 := by
  simp only [step_faultB2]
  split
  · split
    · rfl
    · split
      · rfl
      · rfl
  · rfl

/-- The b2 supervision loop never emits a start command for pump 2. -/
theorem step_faultB2_sin_marcha2 (i : Input) (s : Sys) :
    Event.marchaEv 2 ∉ (step_faultB2 i s).2 := by
  simp only [step_faultB2]
  split
  · split
    · simp
    · split
      · simp
      · simp
  · simp

/-- In the b2 supervision loop a faulted pump 1 stays faulted and stopped,
and no start command is emitted for it: the healthy-pump restart is guarded
by `if not b1.estado_falla`. -/
theorem step_faultB2_b1_averiada (i : Input) (s : Sys)
    (hb1 : s.b1.estado_falla = true) (hb1b : s.b1.estado_bomba = false) :
    ((step_faultB2 i s).1).b1.estado_falla = true ∧
    ((step_faultB2 i s).1).b1.estado_bomba = false ∧
    Event.marchaEv 1 ∉ (step_faultB2 i s).2 := by
  by_cases hfl : i.flotante = true
  · have hfinal : step_faultB2 i s =
        ({ s with
          flotante_previo := (verificar_flotante i.flotante s.flotante_previo s.ciclo).2.1,
          ciclo := (verificar_flotante i.flotante s.flotante_previo s.ciclo).2.2,
          pc := PC.alarma AlarmKind.enRamaB2 }, [Event.senseFlotante]) := by
      simp only [step_faultB2]
      rw [verificar_flotante_fst, if_pos hfl, if_pos hb1]
    rw [hfinal]
    exact ⟨hb1, hb1b, by simp⟩
  · have hfinal : step_faultB2 i s =
        ({ s with
          flotante_previo := (verificar_flotante i.flotante s.flotante_previo s.ciclo).2.1,
          ciclo := (verificar_flotante i.flotante s.flotante_previo s.ciclo).2.2,
          b1 := parada s.b1 },
         [Event.senseFlotante, Event.paradaEv 1]) := by
      simp only [step_faultB2]
      rw [verificar_flotante_fst, if_neg hfl]
    rw [hfinal]
    exact ⟨hb1, rfl, by simp⟩

/-- In the b1 supervision loop a faulted pump 2 stays faulted and stopped,
and no start command is emitted for it. -/
theorem step_faultB1_b2_averiada (i : Input) (s : Sys)
    (hb2 : s.b2.estado_falla = true) (hb2b : s.b2.estado_bomba = false) :
    ((step_faultB1 i s).1).b2.estado_falla = true ∧
    ((step_faultB1 i s).1).b2.estado_bomba = false ∧
    Event.marchaEv 2 ∉ (step_faultB1 i s).2 := by
  by_cases hfl : i.flotante = true
  · have hfinal : step_faultB1 i s =
        ({ s with
          flotante_previo := (verificar_flotante i.flotante s.flotante_previo s.ciclo).2.1,
          ciclo := (verificar_flotante i.flotante s.flotante_previo s.ciclo).2.2,
          pc := PC.alarma AlarmKind.enRamaB1 }, [Event.senseFlotante]) := by
      simp only [step_faultB1]
      rw [verificar_flotante_fst, if_pos hfl, if_pos hb2]
    rw [hfinal]
    exact ⟨hb2, hb2b, by simp⟩
  · have hfinal : step_faultB1 i s =
        ({ s with
          flotante_previo := (verificar_flotante i.flotante s.flotante_previo s.ciclo).2.1,
          ciclo := (verificar_flotante i.flotante s.flotante_previo s.ciclo).2.2,
          b2 := parada s.b2 },
         [Event.senseFlotante, Event.paradaEv 2]) := by
      simp only [step_faultB1]
      rw [verificar_flotante_fst, if_neg hfl]
    rw [hfinal]
    exact ⟨hb2, rfl, by simp⟩

/-- One step from any invariant state keeps a faulted pump 1 faulted and
stopped and never starts it. -/
theorem paso_conserva_falla_b1 (i : Input) (s : Sys) (h : Invariante s)
    (hb : s.b1.estado_falla = true) :
    (step i s).1.b1.estado_falla = true ∧ (step i s).1.b1.estado_bomba = false ∧
    Event.marchaEv 1 ∉ (step i s).2 := by
  obtain ⟨hI1, hI2, hMain, hF1, hF2⟩ := h
  cases hpc : s.pc with
  | mainLoop => rw [(hMain hpc).1] at hb; cases hb
  | faultB1 =>
    have hstep : step i s = step_faultB1 i s := by unfold step; rw [hpc]
    rw [hstep, step_faultB1_b1_eq]
    exact ⟨hb, hI1 hb, step_faultB1_sin_marcha1 i s⟩
  | faultB2 =>
    have hstep : step i s = step_faultB2 i s := by unfold step; rw [hpc]
    rw [hstep]
    exact step_faultB2_b1_averiada i s hb (hI1 hb)
  | alarma k =>
    have hstep : step i s = (s, step_alarma k) := by unfold step; rw [hpc]
    rw [hstep]
    exact ⟨hb, hI1 hb, by cases k <;> simp [step_alarma]⟩

/-- One step from any invariant state keeps a faulted pump 2 faulted and
stopped and never starts it. -/
theorem paso_conserva_falla_b2 (i : Input) (s : Sys) (h : Invariante s)
    (hb : s.b2.estado_falla = true) :
    (step i s).1.b2.estado_falla = true ∧ (step i s).1.b2.estado_bomba = false ∧
    Event.marchaEv 2 ∉ (step i s).2 := by
  obtain ⟨hI1, hI2, hMain, hF1, hF2⟩ := h
  cases hpc : s.pc with
  | mainLoop => rw [(hMain hpc).2] at hb; cases hb
  | faultB1 =>
    have hstep : step i s = step_faultB1 i s := by unfold step; rw [hpc]
    rw [hstep]
    exact step_faultB1_b2_averiada i s hb (hI2 hb)
  | faultB2 =>
    have hstep : step i s = step_faultB2 i s := by unfold step; rw [hpc]
    rw [hstep, step_faultB2_b2_eq]
    exact ⟨hb, hI2 hb, step_faultB2_sin_marcha2 i s⟩
  | alarma k =>
    have hstep : step i s = (s, step_alarma k) := by unfold step; rw [hpc]
    rw [hstep]
    exact ⟨hb, hI2 hb, by cases k <;> simp [step_alarma]⟩

/-- `run` preserves the invariant. -/
theorem run_invariante (l : List Input) (s : Sys) (h : Invariante s) :
    Invariante (run l s) := by
  induction l generalizing s with
  | nil => exact h
  | cons i rest ih => rw [run]; exact ih _ (paso_invariante i s h)

/-- Along any continuation a faulted pump 1 stays faulted and stopped. -/
theorem run_conserva_falla_b1 (l : List Input) (s : Sys) (h : Invariante s)
    (hb : s.b1.estado_falla = true) :
    (run l s).b1.estado_falla = true ∧ (run l s).b1.estado_bomba = false := by
  induction l generalizing s with
  | nil => exact ⟨hb, h.1 hb⟩
  | cons i rest ih =>
    rw [run]
    exact ih _ (paso_invariante i s h) (paso_conserva_falla_b1 i s h hb).1

/-- Along any continuation a faulted pump 2 stays faulted and stopped. -/
theorem run_conserva_falla_b2 (l : List Input) (s : Sys) (h : Invariante s)
    (hb : s.b2.estado_falla = true) :
    (run l s).b2.estado_falla = true ∧ (run l s).b2.estado_bomba = false := by
  induction l generalizing s with
  | nil => exact ⟨hb, h.2.1 hb⟩
  | cons i rest ih =>
    rw [run]
    exact ih _ (paso_invariante i s h) (paso_conserva_falla_b2 i s h hb).1

/-- No continuation from a state with pump 1 faulted ever emits a start
command for pump 1. -/
theorem trace_sin_marcha1 (l : List Input) (s : Sys) (h : Invariante s)
    (hb : s.b1.estado_falla = true) :
    Event.marchaEv 1 ∉ traceEvents l s := by
  induction l generalizing s with
  | nil => simp [traceEvents]
  | cons i rest ih =>
    rw [traceEvents]
    intro hmem
    rcases List.mem_append.1 hmem with hm | hm
    · exact (paso_conserva_falla_b1 i s h hb).2.2 hm
    · exact ih _ (paso_invariante i s h) (paso_conserva_falla_b1 i s h hb).1 hm

/-- No continuation from a state with pump 2 faulted ever emits a start
command for pump 2. -/
theorem trace_sin_marcha2 (l : List Input) (s : Sys) (h : Invariante s)
    (hb : s.b2.estado_falla = true) :
    Event.marchaEv 2 ∉ traceEvents l s := by
  induction l generalizing s with
  | nil => simp [traceEvents]
  | cons i rest ih =>
    rw [traceEvents]
    intro hmem
    rcases List.mem_append.1 hmem with hm | hm
    · exact (paso_conserva_falla_b2 i s h hb).2.2 hm
    · exact ih _ (paso_invariante i s h) (paso_conserva_falla_b2 i s h hb).1 hm

/-- C2: in every reachable state of the control loop, a faulted pump is
stopped (`estado_falla = true` implies `estado_bomba = false`); moreover
once a pump's `estado_falla` is `true`, no sequence of further steps ever
clears it or sets that pump's `estado_bomba` back to `true`, and no step
ever emits a start (`marcha`) command for it — the fault is latched and the
modelled program contains no reset. -/
theorem C2_falla_enclavada (s : Sys) (hs : Reachable s) :
    ((s.b1.estado_falla = true → s.b1.estado_bomba = false) ∧
     (s.b2.estado_falla = true → s.b2.estado_bomba = false)) ∧
    (∀ l : List Input,
      (s.b1.estado_falla = true →
        (run l s).b1.estado_falla = true ∧ (run l s).b1.estado_bomba = false ∧
        Event.marchaEv 1 ∉ traceEvents l s) ∧
      (s.b2.estado_falla = true →
        (run l s).b2.estado_falla = true ∧ (run l s).b2.estado_bomba = false ∧
        Event.marchaEv 2 ∉ traceEvents l s)) := by
  have h := reachable_invariante s hs
  refine ⟨⟨h.1, h.2.1⟩, fun l => ⟨fun hb => ?_, fun hb => ?_⟩⟩
  · exact ⟨(run_conserva_falla_b1 l s h hb).1, (run_conserva_falla_b1 l s h hb).2,
      trace_sin_marcha1 l s h hb⟩
  · exact ⟨(run_conserva_falla_b2 l s h hb).1, (run_conserva_falla_b2 l s h hb).2,
      trace_sin_marcha2 l s h hb⟩

/-- Tick 1: automatic mode, float rises; `ciclo` becomes 1, pump 2 starts,
and its current window `[14]` exceeds the threshold 13, so pump 2 faults. -/
def cexIn1 : Input :=
  { manual := false, bomba1Sel := false, flotante := true,
    samplesB1 := [], samplesB2 := [14], tempB1 := none, tempB2 := none }

/-- Tick 2: inside the b2-fault supervision loop the float stays active, so
pump 1 is started and measured; its window `[14]` faults it too. -/
def cexIn2 : Input :=
  { manual := false, bomba1Sel := false, flotante := true,
    samplesB1 := [14], samplesB2 := [], tempB1 := none, tempB2 := none }

/-- Tick 3: the float reads low. -/
def cexIn3 : Input :=
  { manual := false, bomba1Sel := false, flotante := false,
    samplesB1 := [], samplesB2 := [], tempB1 := none, tempB2 := none }

/-- A reachable state in which both pumps are faulted while control still
sits in the b2-fault supervision loop (not in the alarm display loop). -/
def sysDobleFalla : Sys := (step cexIn2 (step cexIn1 sysInit).1).1

theorem sysDobleFalla_reachable : Reachable sysDobleFalla :=
  Reachable.next cexIn2 (Reachable.next cexIn1 Reachable.base)

/-- Witness for C2 at a concrete reachable doubly-faulted state and a
concrete one-tick continuation. -/
theorem C2_witness :
    (run [cexIn3] sysDobleFalla).b1.estado_falla = true ∧
    (run [cexIn3] sysDobleFalla).b1.estado_bomba = false ∧
    Event.marchaEv 1 ∉ traceEvents [cexIn3] sysDobleFalla :=
  ((C2_falla_enclavada sysDobleFalla sysDobleFalla_reachable).2 [cexIn3]).1 (by decide)

/-- C3 counterexample: `sysDobleFalla` is reachable with both pumps faulted,
yet control sits in the b2-fault supervision loop, not in the terminal alarm
display loop, and the next tick (float low) still polls the float switch —
so sensing does continue after a double fault, contrary to the claim. -/
theorem C3_counterexample :
    sysDobleFalla.b1.estado_falla = true ∧
    sysDobleFalla.b2.estado_falla = true ∧
    sysDobleFalla.pc = PC.faultB2 ∧
    Event.senseFlotante ∈ (step cexIn3 sysDobleFalla).2 ∧
    (step cexIn3 sysDobleFalla).1.pc = PC.faultB2 :=
  ⟨by decide, by decide, by decide, by decide, by decide⟩

/-- C3 amended: once both pumps are faulted in a reachable state, both stay
faulted and stopped forever and no start (`marcha`) command is ever emitted
in any continuation; every tick spent inside a terminal alarm display loop
changes no state and emits only display calls.  However, if the double
fault arises inside a single-fault supervision loop, the float switch keeps
being polled (and the idle pump re-stopped) on float-low ticks until a
float-active tick moves control into the alarm loop. -/
theorem C3_amended_doble_falla (s : Sys) (hs : Reachable s)
    (hb1 : s.b1.estado_falla = true) (hb2 : s.b2.estado_falla = true) :
    (∀ l : List Input,
      (run l s).b1.estado_falla = true ∧ (run l s).b1.estado_bomba = false ∧
      (run l s).b2.estado_falla = true ∧ (run l s).b2.estado_bomba = false ∧
      Event.marchaEv 1 ∉ traceEvents l s ∧ Event.marchaEv 2 ∉ traceEvents l s) ∧
    (∀ (k : AlarmKind) (i : Input), s.pc = PC.alarma k →
      (step i s).1 = s ∧
      (∀ e ∈ (step i s).2, ∃ l1 l2, e = Event.displayEv l1 l2)) := by
  have h := reachable_invariante s hs
  constructor
  · intro l
    exact ⟨(run_conserva_falla_b1 l s h hb1).1, (run_conserva_falla_b1 l s h hb1).2,
      (run_conserva_falla_b2 l s h hb2).1, (run_conserva_falla_b2 l s h hb2).2,
      trace_sin_marcha1 l s h hb1, trace_sin_marcha2 l s h hb2⟩
  · intro k i hpc
    have hstep : step i s = (s, step_alarma k) := by unfold step; rw [hpc]
    rw [hstep]
    refine ⟨rfl, ?_⟩
    intro e he
    cases k <;> simp [step_alarma] at he <;>
      rcases he with rfl | rfl <;> exact ⟨_, _, rfl⟩

/-- Witness for the amended C3 at the concrete doubly-faulted reachable
state and a concrete one-tick continuation. -/
theorem C3_amended_witness :
    (run [cexIn3] sysDobleFalla).b1.estado_falla = true ∧
    (run [cexIn3] sysDobleFalla).b2.estado_falla = true ∧
    Event.marchaEv 1 ∉ traceEvents [cexIn3] sysDobleFalla ∧
    Event.marchaEv 2 ∉ traceEvents [cexIn3] sysDobleFalla := by
  have h := (C3_amended_doble_falla sysDobleFalla sysDobleFalla_reachable
    (by decide) (by decide)).1 [cexIn3]
  exact ⟨h.1, h.2.2.1, h.2.2.2.2.1, h.2.2.2.2.2⟩
